import Mathlib

/-!
Verification of the sailing-simulator core (src/src/main.rs) against its
natural-language specification.

The program is a Bevy ECS application.  The shallow embedding below models:

* `Vec2` — glam's `Vec2` over exact reals (`f32` arithmetic is idealised as
  real arithmetic; decimal literals are read at face value).
* `Transform3` — a Bevy `Transform` restricted to what the program uses: a
  3-D translation plus a rotation angle about the Z axis (the program only
  ever constructs identity rotations and composes them with `rotate_z`, so
  the quaternion is faithfully represented by its Z angle).
* `Entity` / `World` — the two entities the program spawns (`Ship` and its
  child `Sail`) with exactly the components `sys_spawn_ship` attaches, plus
  the `Wind` and `Constants` resources.
* one Lean function per Bevy system, translated line by line from the
  source; each system is a pure `World → World` (or per-entity) function
  taking the frame's `dt` as a parameter.

Division note: glam's `Vec2::project_onto` computes
`rhs * (self.dot(rhs) / rhs.length_squared())` with no zero-axis guard.
`projectOnto` below transcribes that formula using Lean's total real
division (where `x / 0 = 0`); the two semantics agree whenever the axis is
non-zero.  Every axis the program actually projects onto is a world-space
`up()` vector of unit length (`upXY_dot_self`), so the division is always
by 1 in reachable states.
-/

namespace SailingSim

noncomputable section

/-- glam `Vec2`, with exact real components in place of `f32`. -/
@[ext]
structure Vec2 where
  x : ℝ
  y : ℝ

def Vec2.add (a b : Vec2) : Vec2 := ⟨a.x + b.x, a.y + b.y⟩

def Vec2.sub (a b : Vec2) : Vec2 := ⟨a.x - b.x, a.y - b.y⟩

/-- scalar * vector (glam scales componentwise). -/
def Vec2.smul (t : ℝ) (v : Vec2) : Vec2 := ⟨t * v.x, t * v.y⟩

instance : Add Vec2 := ⟨Vec2.add⟩

instance : Sub Vec2 := ⟨Vec2.sub⟩

instance : SMul ℝ Vec2 := ⟨Vec2.smul⟩

@[simp] theorem Vec2.add_def (a b : Vec2) : a + b = ⟨a.x + b.x, a.y + b.y⟩ := rfl

@[simp] theorem Vec2.sub_def (a b : Vec2) : a - b = ⟨a.x - b.x, a.y - b.y⟩ := rfl

@[simp] theorem Vec2.smul_def (t : ℝ) (v : Vec2) : t • v = ⟨t * v.x, t * v.y⟩ := rfl

/-- `Vec2::ZERO`. -/
def Vec2.zero : Vec2 := ⟨0, 0⟩

/-- glam `Vec2::dot`. -/
def Vec2.dot (a b : Vec2) : ℝ := a.x * b.x + a.y * b.y

/-- glam `Vec2::length` = `self.dot(self).sqrt()`. -/
def Vec2.length (v : Vec2) : ℝ := Real.sqrt (v.dot v)

/-- vector / scalar, componentwise (glam `Div<f32>`). -/
def Vec2.divS (v : Vec2) (s : ℝ) : Vec2 := ⟨v.x / s, v.y / s⟩

/-- glam `Vec2::project_onto`: `rhs * (self.dot(rhs) / rhs.length_squared())`.
The source formula divides by `a.dot a` with no zero-axis special case;
here the division is Lean's total real division (see the file header). -/
def projectOnto (v a : Vec2) : Vec2 := ((v.dot a) / (a.dot a)) • a

/-- glam `Vec2::rotate(Vec2::from_angle θ)`: complex-style rotation by `θ`. -/
def Vec2.rot (v : Vec2) (θ : ℝ) : Vec2 :=
  ⟨v.x * Real.cos θ - v.y * Real.sin θ, v.x * Real.sin θ + v.y * Real.cos θ⟩

/-- Bevy `Transform` as the program uses it: translation plus the angle of
the rotation about Z (the only axis the program ever rotates about). -/
@[ext]
structure Transform3 where
  x : ℝ
  y : ℝ
  z : ℝ
  rotZAngle : ℝ

/-- `Transform::default()` (identity). -/
def Transform3.identity : Transform3 := ⟨0, 0, 0, 0⟩

/-- `Transform::from_xyz(x, y, z)` (identity rotation). -/
def Transform3.fromXYZ (x y z : ℝ) : Transform3 := ⟨x, y, z, 0⟩

/-- `Transform::rotate_z(a)`: compose with a rotation by `a` about Z, which
on Z angles is addition. -/
def Transform3.rotZ (t : Transform3) (a : ℝ) : Transform3 :=
  { t with rotZAngle := t.rotZAngle + a }

/-- `transform.up().xy()` for a transform whose rotation is the Z rotation
by `θ`: the image of the +Y axis, `(-sin θ, cos θ)`. -/
def upXY (θ : ℝ) : Vec2 := ⟨-Real.sin θ, Real.cos θ⟩

/-- The value stored in a `TurnRadius(f32)` component: a finite radius or
`f32::INFINITY` (the value `sys_input` writes when no turn key is held). -/
inductive TurnRadiusVal
  | fin (r : ℝ)
  | unbounded

/-- `dist / rad` for a possibly-infinite radius: IEEE division of a finite
numerator by `f32::INFINITY` is 0. -/
def TurnRadiusVal.divBy (dist : ℝ) : TurnRadiusVal → ℝ
  | .fin r => dist / r
  | .unbounded => 0

/-- The `Constants` resource. -/
structure Constants where
  sail_secs_per_rev : ℝ
  wind_change_speed : ℝ
  boat_turn_radius : ℝ
  boat_friction_coefficient : ℝ
  boat_mass : ℝ

/-- `Constants::default()`. -/
def Constants.dflt : Constants :=
  { sail_secs_per_rev := 3
    wind_change_speed := 50
    boat_turn_radius := 400
    boat_friction_coefficient := 1 / 100
    boat_mass := 1 }

/-- One spawned entity with the component slots the program uses; `none`
means the component is absent. -/
structure Entity where
  xf : Transform3
  velocity : Option Vec2
  initXf : Option Transform3
  turnRadius : Option TurnRadiusVal
  sailDrag : Option ℝ
  isObject : Bool

/-- The ECS world: the two entities `sys_spawn_ship` creates (the sail is
the ship's child) and the `Wind` and `Constants` resources. -/
structure World where
  ship : Entity
  sail : Entity
  wind : Vec2
  consts : Constants

/-- Body of the `sys_wind_physics` loop for one sail whose parent boat
resolved: apparent wind, sail force, boat force, acceleration, velocity
update — transcribed from the source. -/
def windPhysicsStep (dt mass drag : ℝ) (wind boatV sailDir boatDir : Vec2) : Vec2 :=
  let apparent_wind_v := wind - boatV
  let sail_f := drag • projectOnto apparent_wind_v sailDir
  let boat_f := projectOnto sail_f boatDir
  let boat_a := boat_f.divS mass
  boatV + dt • boat_a

/-- `sys_wind_physics`: for the one sail entity (`Sail` + `GlobalTransform`
+ `ChildOf`), resolve the parent in the boat query
(`&mut Velocity, &Transform, With<Object>`); skip if it does not resolve.
The sail's world up-vector comes from its `GlobalTransform`, whose Z angle
is the ship's angle plus the sail's local angle. -/
def sys_wind_physics (dt : ℝ) (w : World) : World :=
  if w.ship.isObject then
    match w.sail.sailDrag, w.ship.velocity with
    | some drag, some boat_v =>
        let sail_dir := upXY (w.ship.xf.rotZAngle + w.sail.xf.rotZAngle)
        let boat_dir := upXY w.ship.xf.rotZAngle
        { w with ship := { w.ship with
            velocity := some (windPhysicsStep dt w.consts.boat_mass drag w.wind
                                boat_v sail_dir boat_dir) } }
    | _, _ => w
  else w

/-- Body of the `sys_friction_physics` loop for one entity's velocity:
`f = -c * |v| * v; v = v + f / m * dt`. -/
def frictionStep (dt c m : ℝ) (v : Vec2) : Vec2 :=
  let f := (-c * v.length) • v
  v + dt • (f.divS m)

/-- `sys_friction_physics` on one entity (query `&mut Velocity` with
`With<Object>`). -/
def frictionEntity (dt c m : ℝ) (e : Entity) : Entity :=
  if e.isObject then
    { e with velocity := e.velocity.map (fun v => frictionStep dt c m v) }
  else e

def sys_friction_physics (dt : ℝ) (w : World) : World :=
  { w with
    ship := frictionEntity dt w.consts.boat_friction_coefficient w.consts.boat_mass w.ship
    sail := frictionEntity dt w.consts.boat_friction_coefficient w.consts.boat_mass w.sail }

/-- `sys_circular_motion` on one entity (query
`&TurnRadius, &mut Velocity, &mut Transform`):
`dist = |v * dt|; dtheta = dist / rad * 2 * PI; xf.rotate_z(dtheta);
v = v.rotate(Vec2::from_angle(dtheta))`. -/
def circularEntity (dt : ℝ) (e : Entity) : Entity :=
  match e.turnRadius, e.velocity with
  | some rad, some v =>
      let dist := (dt • v).length
      let dtheta := TurnRadiusVal.divBy dist rad * 2 * Real.pi
      { e with xf := e.xf.rotZ dtheta, velocity := some (v.rot dtheta) }
  | _, _ => e

def sys_circular_motion (dt : ℝ) (w : World) : World :=
  { w with ship := circularEntity dt w.ship, sail := circularEntity dt w.sail }

/-- `sys_apply_velocity` on one entity (query `&mut Transform, &Velocity`):
`translation += dt * velocity.extend(0)`. -/
def applyVelocityEntity (dt : ℝ) (e : Entity) : Entity :=
  match e.velocity with
  | some v => { e with xf := { e.xf with x := e.xf.x + dt * v.x, y := e.xf.y + dt * v.y } }
  | none => e

def sys_apply_velocity (dt : ℝ) (w : World) : World :=
  { w with ship := applyVelocityEntity dt w.ship, sail := applyVelocityEntity dt w.sail }

/-- `sys_reset_xf` body for one entity of the query
`(&mut Transform, Option<&mut Velocity>, &InitialTransform)`. -/
def resetEntity (e : Entity) : Entity :=
  match e.initXf with
  | some init_xf =>
      { e with xf := init_xf, velocity := e.velocity.map (fun _ => Vec2.zero) }
  | none => e

/-- `sys_reset_xf`: if at least one `EventResetTransform` was queued
(`ev_reset_xf.read().next().is_some()`), restore every entity that holds an
`InitialTransform`. -/
def sys_reset_xf (events : ℕ) (w : World) : World :=
  if 0 < events then { w with ship := resetEntity w.ship, sail := resetEntity w.sail }
  else w

/-- Sail-rotation delta of `sys_input` per frame, as a function of the two
arrow keys: `rotate_speed = PI * 2 / sail_secs_per_rev`; `ArrowLeft` gives
`+rotate_speed * dt`, otherwise `ArrowRight` gives `-rotate_speed * dt`,
otherwise no rotation is applied (delta 0). -/
def sailRotDelta (secsPerRev dt : ℝ) (left right : Bool) : ℝ :=
  if left then (Real.pi * 2 / secsPerRev) * dt
  else if right then -((Real.pi * 2 / secsPerRev) * dt)
  else 0

/-- The Ship entity as `sys_spawn_ship` creates it: `Object`,
`InitialTransform(default())`, `Velocity(0,0)`, `TurnRadius(200.)`, and a
default `Transform` (required by `Mesh2d`). -/
def spawnShip : Entity :=
  { xf := Transform3.identity
    velocity := some ⟨0, 0⟩
    initXf := some Transform3.identity
    turnRadius := some (.fin 200)
    sailDrag := none
    isObject := true }

/-- The Sail child entity as `sys_spawn_ship` creates it: `Object`,
`Sail { drag_coefficient: 0.3 }`, `Transform::from_xyz(0., 15., 1.)` — and
no `Velocity`, no `TurnRadius`, no `InitialTransform`. -/
def spawnSail : Entity :=
  { xf := Transform3.fromXYZ 0 15 1
    velocity := none
    initXf := none
    turnRadius := none
    sailDrag := some (3 / 10)
    isObject := true }

/-- The world after startup: the two spawned entities plus the resources
`main` inserts (`Wind(Vec2::new(0.0, 30.0))`, `Constants::default()`). -/
def spawnWorld : World :=
  { ship := spawnShip, sail := spawnSail, wind := ⟨0, 30⟩, consts := Constants.dflt }

/-- One frame-step of a physics system, with its `dt`. -/
inductive PhysStep
  | windStep (dt : ℝ)
  | circularStep (dt : ℝ)
  | frictionStep (dt : ℝ)
  | integrateStep (dt : ℝ)

def applyPhysStep : PhysStep → World → World
  | .windStep dt, w => sys_wind_physics dt w
  | .circularStep dt, w => sys_circular_motion dt w
  | .frictionStep dt, w => sys_friction_physics dt w
  | .integrateStep dt, w => sys_apply_velocity dt w

def runPhys : List PhysStep → World → World
  | [], w => w
  | s :: rest, w => runPhys rest (applyPhysStep s w)

/-! ### Basic lemmas about the vector model -/

/-- A world-space up vector is always unit length, so the divisor in
`projectOnto` is 1 for every axis the program projects onto. -/
theorem upXY_dot_self (θ : ℝ) : (upXY θ).dot (upXY θ) = 1 := by
  have h := Real.sin_sq_add_cos_sq θ
  simp only [upXY, Vec2.dot]
  nlinarith [h]

theorem upXY_zero : upXY 0 = ⟨0, 1⟩ := by
  simp [upXY]

/-- Rotating a vector preserves its squared length. -/
theorem Vec2.dot_rot_self (v : Vec2) (θ : ℝ) : (v.rot θ).dot (v.rot θ) = v.dot v := by
  have h := Real.sin_sq_add_cos_sq θ
  simp only [Vec2.rot, Vec2.dot]
  nlinarith [h]

/-- Rotating a vector preserves its length. -/
theorem Vec2.rot_length (v : Vec2) (θ : ℝ) : (v.rot θ).length = v.length := by
  unfold Vec2.length
  rw [Vec2.dot_rot_self]

theorem Vec2.rot_zero (v : Vec2) : v.rot 0 = v := by
  simp [Vec2.rot]

theorem Vec2.length_smul (t : ℝ) (v : Vec2) : (t • v).length = |t| * v.length := by
  simp only [Vec2.length, Vec2.smul_def, Vec2.dot]
  rw [show t * v.x * (t * v.x) + t * v.y * (t * v.y) = t ^ 2 * (v.x * v.x + v.y * v.y) by ring,
    Real.sqrt_mul (sq_nonneg t), Real.sqrt_sq_eq_abs]

theorem Vec2.length_nonneg (v : Vec2) : 0 ≤ v.length := Real.sqrt_nonneg _

/-- The friction update is a pure rescaling of the velocity. -/
theorem frictionStep_eq_smul (dt c m : ℝ) (v : Vec2) :
    frictionStep dt c m v = (1 - c * v.length * dt / m) • v := by
  unfold frictionStep Vec2.divS
  ext <;> simp <;> ring

theorem length_mk_0_10 : (Vec2.mk 0 10).length = 10 := by
  unfold Vec2.length Vec2.dot
  rw [show (0 : ℝ) * 0 + 10 * 10 = 10 ^ 2 by norm_num]
  exact Real.sqrt_sq (by norm_num)

/-! ### Claim theorems -/

/-- Claim C1: one step of the Wind Physics System updates the ship's
velocity by apparent wind = Wind − Ship.Velocity, sail force =
drag_coefficient · (apparent wind projected onto the sail's world forward
axis), propulsive force = sail force projected onto the ship's world
forward axis, Velocity += (propulsive force / mass) · dt; and in the
spawn-state scenario (Wind = (0,30), velocity = (0,0), both headings +Y,
drag = 0.3, mass = 1, dt = 1) the resulting velocity is (0,9). -/
theorem wind_physics_velocity_update :
    (∀ (dt mass drag : ℝ) (wind boatV sailDir boatDir : Vec2),
      windPhysicsStep dt mass drag wind boatV sailDir boatDir
        = boatV + dt • ((projectOnto (drag • projectOnto (wind - boatV) sailDir) boatDir).divS mass))
    ∧ (sys_wind_physics 1 spawnWorld).ship.velocity = some ⟨0, 9⟩ := by
  constructor
  · intro dt mass drag wind boatV sailDir boatDir
    rfl
  · norm_num [sys_wind_physics, spawnWorld, spawnShip, spawnSail, windPhysicsStep,
      projectOnto, upXY, Vec2.dot, Vec2.divS, Constants.dflt, Transform3.identity,
      Transform3.fromXYZ, Vec2.mk.injEq]

/-- Claim C2: for an entity with a Velocity, a Transform and a finite
TurnRadius, one circular-motion step computes distance = |Velocity·dt| and
delta_angle = (distance / radius) · 2π (including the 2π factor), rotates
the heading by delta_angle and the Velocity by the same delta_angle,
preserving the Velocity's magnitude. -/
theorem circular_motion_rotates (dt r : ℝ) (v : Vec2) (xf : Transform3)
    (ixf : Option Transform3) (sd : Option ℝ) (ob : Bool) :
    circularEntity dt ⟨xf, some v, ixf, some (.fin r), sd, ob⟩
      = ⟨xf.rotZ ((dt • v).length / r * (2 * Real.pi)),
         some (v.rot ((dt • v).length / r * (2 * Real.pi))), ixf, some (.fin r), sd, ob⟩
    ∧ (v.rot ((dt • v).length / r * (2 * Real.pi))).length = v.length := by
  constructor
  · simp only [circularEntity, TurnRadiusVal.divBy, mul_assoc]
  · exact Vec2.rot_length v _

/-- Claim C7: one friction step sets
Velocity := Velocity + (−friction_coefficient · |Velocity| · Velocity / mass) · dt
for every Object with a Velocity, zero velocity gives zero change, and in
the scenario (c = 0.01, m = 1, v = (0,10), dt = 1) the force is (0,−1) and
the resulting velocity is (0,9). -/
theorem friction_step_formula :
    (∀ (dt c m : ℝ) (xf : Transform3) (v : Vec2) (ixf : Option Transform3)
        (tr : Option TurnRadiusVal) (sd : Option ℝ),
      frictionEntity dt c m ⟨xf, some v, ixf, tr, sd, true⟩
        = ⟨xf, some (v + dt • (((-c * v.length) • v).divS m)), ixf, tr, sd, true⟩)
    ∧ ((-(1 / 100 : ℝ) * (Vec2.mk 0 10).length) • Vec2.mk 0 10 = Vec2.mk 0 (-1))
    ∧ frictionStep 1 (1 / 100) 1 ⟨0, 10⟩ = ⟨0, 9⟩
    ∧ (∀ dt c m : ℝ, frictionStep dt c m Vec2.zero = Vec2.zero) := by
  refine ⟨fun dt c m xf v ixf tr sd => ?_, ?_, ?_, fun dt c m => ?_⟩
  · simp [frictionEntity, frictionStep]
  · rw [length_mk_0_10]
    ext <;> norm_num
  · rw [frictionStep_eq_smul, length_mk_0_10]
    ext <;> norm_num
  · unfold frictionStep Vec2.divS Vec2.zero
    ext <;> simp

/-- Claim C9: an entity whose TurnRadius is infinite is left completely
unchanged by one circular-motion step (heading and Velocity, both
direction and magnitude), for any velocity and any dt. -/
theorem circular_motion_unbounded_radius (dt : ℝ) (xf : Transform3) (vel : Option Vec2)
    (ixf : Option Transform3) (sd : Option ℝ) (ob : Bool) :
    circularEntity dt ⟨xf, vel, ixf, some TurnRadiusVal.unbounded, sd, ob⟩
      = ⟨xf, vel, ixf, some TurnRadiusVal.unbounded, sd, ob⟩ := by
  cases vel with
  | none => rfl
  | some v =>
      simp only [circularEntity, TurnRadiusVal.divBy, zero_mul, Vec2.rot_zero]
      simp [Transform3.rotZ]

/-- Claim C10 counterexample: with both sail keys held simultaneously the
claim demands a zero rotation delta, but the source's `else if` gives the
left key precedence: at sail_secs_per_rev = 3, dt = 1 the applied delta is
2π/3, which is not zero. -/
theorem sail_rot_both_keys_nonzero :
    sailRotDelta 3 1 true true = Real.pi * 2 / 3 ∧ Real.pi * 2 / 3 ≠ 0 := by
  constructor
  · simp [sailRotDelta]
  · positivity

/-- Claim C10 as amended: the per-frame sail-rotation delta is
(2π / sail_secs_per_rev) · dt · direction where direction is +1 whenever
the sail-left key is held (even if sail-right is also held — left takes
precedence), −1 if only sail-right is held, and 0 if neither is held. -/
theorem sail_rot_direction (secs dt : ℝ) (l r : Bool) :
    sailRotDelta secs dt l r
      = (Real.pi * 2 / secs) * dt * (if l then 1 else if r then -1 else 0) := by
  cases l <;> cases r <;> simp [sailRotDelta]

/-- Length of the velocity after `n` friction steps. -/
def frictIter (dt c m : ℝ) (v : Vec2) : ℕ → Vec2
  | 0 => v
  | n + 1 => frictionStep dt c m (frictIter dt c m v n)

theorem frictIter_zero (dt c m : ℝ) (v : Vec2) : frictIter dt c m v 0 = v := rfl

theorem frictionStep_length (dt c m : ℝ) (u : Vec2) :
    (frictionStep dt c m u).length = |1 - c * u.length * dt / m| * u.length := by
  rw [frictionStep_eq_smul, Vec2.length_smul]

/-- Under the no-overshoot condition the iterated friction lengths stay in
the interval (0, |v|]. -/
theorem frictIter_length_bounds (dt c m : ℝ) (v : Vec2)
    (hc : 0 < c) (hm : 0 < m) (hdt : 0 < dt) (hv : 0 < v.length)
    (hsmall : c * v.length * dt / m < 1) (n : ℕ) :
    0 < (frictIter dt c m v n).length ∧ (frictIter dt c m v n).length ≤ v.length := by
  induction n with
  | zero => exact ⟨hv, le_rfl⟩
  | succ n ih =>
      obtain ⟨h1, h2⟩ := ih
      have hkle : c * (frictIter dt c m v n).length * dt / m ≤ c * v.length * dt / m := by
        gcongr
      have hk1 : c * (frictIter dt c m v n).length * dt / m < 1 :=
        lt_of_le_of_lt hkle hsmall
      have hstep : frictIter dt c m v (n + 1) = frictionStep dt c m (frictIter dt c m v n) :=
        rfl
      have hpos : 0 < 1 - c * (frictIter dt c m v n).length * dt / m := by linarith
      rw [hstep, frictionStep_length, abs_of_pos hpos]
      constructor
      · exact mul_pos hpos h1
      · calc (1 - c * (frictIter dt c m v n).length * dt / m) * (frictIter dt c m v n).length
            ≤ 1 * (frictIter dt c m v n).length := by
              apply mul_le_mul_of_nonneg_right _ h1.le
              have hk0 : 0 < c * (frictIter dt c m v n).length * dt / m := by positivity
              linarith
        _ = (frictIter dt c m v n).length := one_mul _
        _ ≤ v.length := h2

/-- Claim C8: friction alone is strictly decelerating — for a velocity of
positive magnitude and positive friction coefficient, mass and dt small
enough that c·|v|·dt/m < 1, each further friction step strictly decreases
the speed, and the speed never goes below zero. -/
theorem friction_strictly_decelerating (dt c m : ℝ) (v : Vec2)
    (hc : 0 < c) (hm : 0 < m) (hdt : 0 < dt) (hv : 0 < v.length)
    (hsmall : c * v.length * dt / m < 1) (n : ℕ) :
    (frictIter dt c m v (n + 1)).length < (frictIter dt c m v n).length
    ∧ 0 ≤ (frictIter dt c m v n).length := by
  obtain ⟨h1, h2⟩ := frictIter_length_bounds dt c m v hc hm hdt hv hsmall n
  refine ⟨?_, h1.le⟩
  have hk0 : 0 < c * (frictIter dt c m v n).length * dt / m := by positivity
  have hkle : c * (frictIter dt c m v n).length * dt / m ≤ c * v.length * dt / m := by
    gcongr
  have hk1 : c * (frictIter dt c m v n).length * dt / m < 1 :=
    lt_of_le_of_lt hkle hsmall
  have hstep : frictIter dt c m v (n + 1) = frictionStep dt c m (frictIter dt c m v n) :=
    rfl
  rw [hstep, frictionStep_length, abs_of_pos (by linarith)]
  nlinarith [mul_pos hk0 h1]

/-- Witness for claim C8 at dt = 1, c = 1/100, m = 1, v = (0, 10), n = 0:
all hypotheses hold and the first friction step strictly reduces the
speed. -/
theorem friction_strictly_decelerating_witness :
    (0 < (1 / 100 : ℝ)) ∧ (0 < (1 : ℝ)) ∧ (0 < (1 : ℝ)) ∧ (0 < (Vec2.mk 0 10).length)
    ∧ ((1 / 100 : ℝ) * (Vec2.mk 0 10).length * 1 / 1 < 1)
    ∧ ((frictIter 1 (1 / 100) 1 (Vec2.mk 0 10) (0 + 1)).length
          < (frictIter 1 (1 / 100) 1 (Vec2.mk 0 10) 0).length
       ∧ 0 ≤ (frictIter 1 (1 / 100) 1 (Vec2.mk 0 10) 0).length) := by
  have h4 : 0 < (Vec2.mk 0 10).length := by rw [length_mk_0_10]; norm_num
  have h5 : (1 / 100 : ℝ) * (Vec2.mk 0 10).length * 1 / 1 < 1 := by
    rw [length_mk_0_10]; norm_num
  exact ⟨by norm_num, by norm_num, by norm_num, h4, h5,
    friction_strictly_decelerating 1 (1 / 100) 1 ⟨0, 10⟩ (by norm_num) (by norm_num)
      (by norm_num) h4 h5 0⟩

/-! ### Component-preservation invariants: no physics system ever writes an
`InitialTransform`, and none removes a `Velocity` component. -/

theorem circularEntity_initXf (dt : ℝ) (e : Entity) :
    (circularEntity dt e).initXf = e.initXf := by
  rcases e with ⟨xf, vel, ixf, tr, sd, ob⟩
  rcases tr with _ | tr <;> rcases vel with _ | v <;> rfl

theorem circularEntity_velocity_isSome (dt : ℝ) (e : Entity) :
    (circularEntity dt e).velocity.isSome = e.velocity.isSome := by
  rcases e with ⟨xf, vel, ixf, tr, sd, ob⟩
  rcases tr with _ | tr <;> rcases vel with _ | v <;> rfl

theorem frictionEntity_initXf (dt c m : ℝ) (e : Entity) :
    (frictionEntity dt c m e).initXf = e.initXf := by
  rcases e with ⟨xf, vel, ixf, tr, sd, ob⟩
  cases ob <;> rfl

theorem frictionEntity_velocity_isSome (dt c m : ℝ) (e : Entity) :
    (frictionEntity dt c m e).velocity.isSome = e.velocity.isSome := by
  rcases e with ⟨xf, vel, ixf, tr, sd, ob⟩
  cases ob <;> cases vel <;> rfl

theorem applyVelocityEntity_initXf (dt : ℝ) (e : Entity) :
    (applyVelocityEntity dt e).initXf = e.initXf := by
  rcases e with ⟨xf, vel, ixf, tr, sd, ob⟩
  cases vel <;> rfl

theorem applyVelocityEntity_velocity (dt : ℝ) (e : Entity) :
    (applyVelocityEntity dt e).velocity = e.velocity := by
  rcases e with ⟨xf, vel, ixf, tr, sd, ob⟩
  cases vel <;> rfl

theorem applyPhysStep_inv (s : PhysStep) (w : World) :
    (applyPhysStep s w).ship.initXf = w.ship.initXf
    ∧ (applyPhysStep s w).ship.velocity.isSome = w.ship.velocity.isSome
    ∧ (applyPhysStep s w).sail.initXf = w.sail.initXf := by
  cases s with
  | windStep dt =>
      show (sys_wind_physics dt w).ship.initXf = _ ∧ _
      rcases w with ⟨⟨sxf, svel, sixf, str, ssd, sob⟩, ⟨lxf, lvel, lixf, ltr, lsd, lob⟩, wind, consts⟩
      cases sob <;> cases lsd <;> cases svel <;> exact ⟨rfl, rfl, rfl⟩
  | circularStep dt =>
      exact ⟨circularEntity_initXf dt w.ship, circularEntity_velocity_isSome dt w.ship,
        circularEntity_initXf dt w.sail⟩
  | frictionStep dt =>
      exact ⟨frictionEntity_initXf _ _ _ w.ship, frictionEntity_velocity_isSome _ _ _ w.ship,
        frictionEntity_initXf _ _ _ w.sail⟩
  | integrateStep dt =>
      exact ⟨applyVelocityEntity_initXf dt w.ship,
        congrArg Option.isSome (applyVelocityEntity_velocity dt w.ship),
        applyVelocityEntity_initXf dt w.sail⟩

theorem runPhys_inv (steps : List PhysStep) (w : World) :
    (runPhys steps w).ship.initXf = w.ship.initXf
    ∧ (runPhys steps w).ship.velocity.isSome = w.ship.velocity.isSome
    ∧ (runPhys steps w).sail.initXf = w.sail.initXf := by
  induction steps generalizing w with
  | nil => exact ⟨rfl, rfl, rfl⟩
  | cons s rest ih =>
      have h1 := applyPhysStep_inv s w
      have h2 := ih (applyPhysStep s w)
      exact ⟨h2.1.trans h1.1, h2.2.1.trans h1.2.1, h2.2.2.trans h1.2.2⟩

/-- Claim C3: after any sequence of physics-system updates starting from
the spawn state, a frame in which the Reset System consumes at least one
ResetEvent leaves every InitialTransform-holding entity (the ship) with its
Transform equal to the snapshot captured at spawn and its Velocity equal to
the zero vector. -/
theorem reset_round_trip (steps : List PhysStep) (n : ℕ) (hn : 0 < n) :
    (sys_reset_xf n (runPhys steps spawnWorld)).ship.xf = Transform3.identity
    ∧ (sys_reset_xf n (runPhys steps spawnWorld)).ship.velocity = some Vec2.zero := by
  have h := runPhys_inv steps spawnWorld
  have hix : (runPhys steps spawnWorld).ship.initXf = some Transform3.identity := by
    rw [h.1]; rfl
  have hvs : ((runPhys steps spawnWorld).ship.velocity).isSome = true := by
    rw [h.2.1]; rfl
  obtain ⟨v0, hv0⟩ := Option.isSome_iff_exists.mp hvs
  unfold sys_reset_xf
  rw [if_pos hn]
  constructor
  · show (resetEntity (runPhys steps spawnWorld).ship).xf = _
    unfold resetEntity
    rw [hix]
  · show (resetEntity (runPhys steps spawnWorld).ship).velocity = _
    unfold resetEntity
    rw [hix]
    show ((runPhys steps spawnWorld).ship.velocity).map _ = _
    rw [hv0]
    rfl

/-- Witness for claim C3 with an empty physics sequence and one queued
ResetEvent. -/
theorem reset_round_trip_witness :
    0 < 1
    ∧ ((sys_reset_xf 1 (runPhys [] spawnWorld)).ship.xf = Transform3.identity
       ∧ (sys_reset_xf 1 (runPhys [] spawnWorld)).ship.velocity = some Vec2.zero) :=
  ⟨Nat.one_pos, reset_round_trip [] 1 Nat.one_pos⟩

/-- Claim C5 counterexample: `sys_spawn_ship` attaches no
`InitialTransform` to the Sail child entity, so the sail's snapshot is not
its spawn transform — it does not exist at all. -/
theorem sail_spawn_no_initial_transform :
    spawnWorld.sail.initXf = none
    ∧ spawnWorld.sail.initXf ≠ some spawnWorld.sail.xf := by
  refine ⟨rfl, ?_⟩
  intro h
  exact Option.noConfusion h

/-- Claim C5 as amended: at startup the Ship is created with an
InitialTransform equal to its spawn Transform, while the Sail is created
without any InitialTransform; the entities persist and no physics system
ever modifies the snapshot (or creates one for the sail). -/
theorem spawn_initial_transform_facts :
    spawnWorld.ship.initXf = some spawnWorld.ship.xf
    ∧ spawnWorld.sail.initXf = none
    ∧ (∀ steps : List PhysStep,
        (runPhys steps spawnWorld).ship.initXf = some spawnWorld.ship.xf
        ∧ (runPhys steps spawnWorld).sail.initXf = none) := by
  refine ⟨rfl, rfl, fun steps => ?_⟩
  have h := runPhys_inv steps spawnWorld
  exact ⟨h.1, h.2.2⟩

/-! ### The Update schedule declared in `main` -/

/-- The systems `main` registers in Bevy's `Update` schedule. -/
inductive BSys
  | sysInputMapper
  | sysDrawDebugGizmos
  | sysWindPhysics
  | sysApplyVelocity
  | sysCircularMotion
  | sysFrictionPhysics
  | sysResetXf
  | sysMouseTrack
deriving DecidableEq

/-- Ordering edges contributed by one `add_systems` call: `.chain()` on a
tuple orders consecutive members; a call with a single system contributes
no edge. -/
def chainEdges : List BSys → List (BSys × BSys)
  | a :: b :: rest => (a, b) :: chainEdges (b :: rest)
  | _ => []

/-- The `add_systems(Update, …)` calls of `main`, in source order.  The
only tuple is `(sys_wind_physics, sys_apply_velocity).chain()`; every other
system is added on its own, with no `.before`/`.after`/`.chain`
constraint. -/
def updateRegistrations : List (List BSys) :=
  [[.sysInputMapper], [.sysDrawDebugGizmos], [.sysWindPhysics, .sysApplyVelocity],
   [.sysCircularMotion], [.sysFrictionPhysics], [.sysResetXf], [.sysMouseTrack]]

/-- All before-edges the app declares for the Update schedule. -/
def updateEdges : List (BSys × BSys) := (updateRegistrations.map chainEdges).flatten

/-- `a` is constrained by the declared schedule to run strictly before `b`
within a tick (transitive closure of the declared edges).  Bevy runs
systems with no such constraint in an unspecified relative order. -/
def scheduledBefore (a b : BSys) : Prop :=
  Relation.TransGen (fun x y => (x, y) ∈ updateEdges) a b

theorem updateEdges_eq :
    updateEdges = [(BSys.sysWindPhysics, BSys.sysApplyVelocity)] := rfl

theorem mem_updateEdges (a b : BSys) (h : (a, b) ∈ updateEdges) :
    a = BSys.sysWindPhysics ∧ b = BSys.sysApplyVelocity := by
  rw [updateEdges_eq] at h
  have h' := List.mem_singleton.mp h
  rw [Prod.ext_iff] at h'
  exact h'

theorem transGen_updateEdges_src (a b : BSys)
    (h : Relation.TransGen (fun x y => (x, y) ∈ updateEdges) a b) :
    a = BSys.sysWindPhysics := by
  induction h with
  | single h' => exact (mem_updateEdges _ _ h').1
  | tail _ _ ih => exact ih

/-- Claim C4 counterexample: the schedule built in `main` declares no
constraint (direct or transitive) ordering the Reset System after the
Friction System — so the claimed strict total order with Reset last is not
established by the code. -/
theorem reset_not_ordered_after_friction :
    ¬ scheduledBefore BSys.sysFrictionPhysics BSys.sysResetXf := by
  intro h
  exact absurd (transGen_updateEdges_src _ _ h) (by decide)

/-- Claim C4 as amended: within a tick the app declares exactly one
ordering constraint — Wind Physics strictly before Integration
(`sys_apply_velocity`), via `.chain()`.  No declared constraint orders the
Input Mapper before Wind Physics, nor Integration before Reset, so the
claimed total order Input → Wind → Circular → Friction → Integration →
Reset is not established; unconstrained systems run in an unspecified
relative order. -/
theorem update_order_declared :
    updateEdges = [(BSys.sysWindPhysics, BSys.sysApplyVelocity)]
    ∧ scheduledBefore BSys.sysWindPhysics BSys.sysApplyVelocity
    ∧ ¬ scheduledBefore BSys.sysInputMapper BSys.sysWindPhysics
    ∧ ¬ scheduledBefore BSys.sysApplyVelocity BSys.sysResetXf := by
  refine ⟨updateEdges_eq, Relation.TransGen.single ?_, ?_, ?_⟩
  · rw [updateEdges_eq]
    exact List.mem_singleton.mpr rfl
  · intro h
    exact absurd (transGen_updateEdges_src _ _ h) (by decide)
  · intro h
    exact absurd (transGen_updateEdges_src _ _ h) (by decide)

end

end SailingSim
